import Mathlib

/-!
Verification of `doParseTunnelConfig` from `client/go/outline/parse.go`
(outline-apps). The function classifies a tunnel-config text blob into one
of three dialects, extracts or validates a transport configuration,
surfaces embedded provider errors, and assembles a response envelope.

External collaborators (the goccy/go-yaml library's document parsing and
marshalling, and the `NewClient` transport constructor) are modelled as
abstract functions gathered in an `Env` record; the control flow of
`doParseTunnelConfig` itself, the key probing, the error construction and
the first-hop reconciliation are embedded concretely from the source.
-/

namespace Outline

/-- A parsed YAML/JSON document value (the generic value tree that
`yaml.Unmarshal` produces into `any` / `map[string]any`, and that
`ast.Node` denotes). -/
inductive YamlVal where
  | null
  | bool (b : Bool)
  | num (n : Int)
  | str (s : String)
  | seq (xs : List YamlVal)
  | map (entries : List (String × YamlVal))

/-- Error codes used by `parse.go` (`platerrors.InvalidConfig`,
`platerrors.ProviderError`, `platerrors.InternalError`) plus arbitrary
codes that the `NewClient` collaborator may produce and that are passed
through. -/
inductive ErrorCode where
  | invalidConfig
  | providerError
  | internalError
  | passthrough (s : String)
deriving DecidableEq, Repr

/-- `platerrors.PlatformError`: code, message, and an optional details
mapping (`map[string]any` in Go; all values used here are strings). -/
structure PlatformError where
  code : ErrorCode
  message : String
  details : Option (List (String × String))
deriving DecidableEq, Repr

/-- The outer result envelope. In Go, `Value string` (zero value `""`)
and `Error *platerrors.PlatformError` (nil when absent). -/
structure InvokeMethodResult where
  value : String
  error : Option PlatformError
deriving DecidableEq, Repr

/-- The per-protocol first-hop metadata exposed by the client returned by
`NewClient` (`result.Client.sd.ConnectionProviderInfo.FirstHop` and
`result.Client.pl.ConnectionProviderInfo.FirstHop`). -/
structure FirstHops where
  stream : String
  packet : String
deriving DecidableEq, Repr

/-- The nested error object of `parseTunnelConfigRequest`:
`struct { Message string; Details string }`. -/
structure ErrorInfo where
  message : String
  details : String
deriving DecidableEq, Repr

/-- `parseTunnelConfigRequest`: `Transport ast.Node` (the raw subtree,
zero value nil modelled as `.null`) and `Error *struct{...}` (nil
modelled as `none`). -/
structure ParseTunnelConfigRequest where
  transport : YamlVal
  error : Option ErrorInfo

/-- The external collaborators of `doParseTunnelConfig`: the YAML
document parser and marshaller (goccy/go-yaml) and the transport
constructor `NewClient`, abstracted as functions. `newClient` returns
either first-hop metadata or a `PlatformError`, matching the
`NewClientResult` contract. -/
structure Env where
  yamlParse : String → Except String YamlVal
  yamlMarshal : YamlVal → Except String String
  newClient : String → Except PlatformError FirstHops

/-- The whitespace set trimmed by Go's `strings.TrimSpace`
(`unicode.IsSpace`, Latin-1 range). -/
def goIsSpace (c : Char) : Bool :=
  c = ' ' || c = '\t' || c = '\n' || c.toNat = 0xB || c.toNat = 0xC ||
  c = '\r' || c.toNat = 0x85 || c.toNat = 0xA0

/-- `strings.TrimSpace`: drop leading and trailing whitespace. -/
def trimSpace (s : String) : String :=
  String.mk (((s.toList.dropWhile goIsSpace).reverse.dropWhile goIsSpace).reverse)

/-- `strings.HasPrefix`: whether `p` is a prefix of `s`. -/
def hasPrefixStr (s p : String) : Bool :=
  List.isPrefixOf p.toList s.toList

/-- Key lookup in a parsed top-level mapping (Go map indexing). -/
def lookupKey (entries : List (String × YamlVal)) (key : String) : Option YamlVal :=
  (entries.find? (fun e => e.1 = key)).map (fun e => e.2)

/-- `hasKey` from parse.go: whether a key is present in the map. -/
def hasKey (entries : List (String × YamlVal)) (key : String) : Bool :=
  (lookupKey entries key).isSome

/-- Decoding a parsed document into `map[string]any`: succeeds exactly
when the document is a mapping (or null, which leaves the map nil),
mirroring the yaml library's typed decode step. A scalar or sequence
document fails with a type-mismatch error. -/
def decodeMap : YamlVal → Option (List (String × YamlVal))
  | .map entries => some entries
  | .null => some []
  | _ => none

/-- Name of a document kind, used in modelled type-mismatch messages. -/
def yamlKindName : YamlVal → String
  | .null => "null"
  | .bool _ => "bool"
  | .num _ => "number"
  | .str _ => "string"
  | .seq _ => "sequence"
  | .map _ => "mapping"

/-- `yaml.Unmarshal([]byte(input), &yamlValue)` for
`yamlValue : map[string]any`: parse the document, then decode it into a
string-keyed map. -/
def unmarshalMap (env : Env) (input : String) : Except String (List (String × YamlVal)) :=
  match env.yamlParse input with
  | .error e => .error e
  | .ok doc =>
    match decodeMap doc with
    | some entries => .ok entries
    | none => .error ("cannot unmarshal " ++ yamlKindName doc ++ " into map")

/-- Decode a document value into a Go `string` field: strings decode to
themselves, null to the zero value, anything else is a type mismatch. -/
def decodeString : YamlVal → Except String String
  | .str s => .ok s
  | .null => .ok ""
  | v => .error ("cannot unmarshal " ++ yamlKindName v ++ " into string")

/-- Decode the `error` field into `*struct{ Message, Details string }`:
null leaves the pointer nil, a mapping decodes the two fields (absent
fields keep their zero value `""`), anything else is a type mismatch. -/
def decodeErrorInfo : YamlVal → Except String (Option ErrorInfo)
  | .null => .ok none
  | .map fields =>
    match (match lookupKey fields "message" with
           | none => Except.ok ""
           | some v => decodeString v) with
    | .error e => .error e
    | .ok msg =>
      match (match lookupKey fields "details" with
             | none => Except.ok ""
             | some v => decodeString v) with
      | .error e => .error e
      | .ok det => .ok (some { message := msg, details := det })
  | v => .error ("cannot unmarshal " ++ yamlKindName v ++ " into error struct")

/-- Decode a document into `parseTunnelConfigRequest`: `Transport` keeps
the raw `transport` subtree (zero value null when the key is absent),
`Error` decodes the `error` key when present. -/
def decodeRequest : YamlVal → Except String ParseTunnelConfigRequest
  | .null => .ok { transport := .null, error := none }
  | .map entries =>
    match (match lookupKey entries "error" with
           | none => Except.ok (Option.none (α := ErrorInfo))
           | some v => decodeErrorInfo v) with
    | .error e => .error e
    | .ok err =>
      .ok { transport := (lookupKey entries "transport").getD .null, error := err }
  | v => .error ("cannot unmarshal " ++ yamlKindName v ++ " into struct")

/-- `yaml.Unmarshal([]byte(input), &tunnelConfig)` for
`tunnelConfig : parseTunnelConfigRequest`. -/
def unmarshalRequest (env : Env) (input : String) : Except String ParseTunnelConfigRequest :=
  match env.yamlParse input with
  | .error e => .error e
  | .ok doc => decodeRequest doc

/-- Lines 49-109 of parse.go: given the trimmed input, resolve the
transport config text or fail with a `PlatformError`. -/
def resolveTransportText (env : Env) (input : String) : Except PlatformError String :=
  if hasPrefixStr input "ss://" then
    -- Legacy URL format. Input is the transport config.
    .ok input
  else
    match unmarshalMap env input with
    | .error e =>
      .error { code := .invalidConfig, message := "failed to parse: " ++ e, details := none }
    | .ok yamlValue =>
      if hasKey yamlValue "transport" || hasKey yamlValue "error" then
        -- New format. Parse as tunnel config.
        match unmarshalRequest env input with
        | .error e =>
          .error { code := .invalidConfig, message := "failed to parse: " ++ e, details := none }
        | .ok tunnelConfig =>
          match tunnelConfig.error with
          | some errInfo =>
            -- Provider-reported failure.
            .error { code := .providerError
                     message := errInfo.message
                     details :=
                       if errInfo.details ≠ "" then some [("details", errInfo.details)]
                       else none }
          | none =>
            -- Extract transport config as an opaque string.
            match env.yamlMarshal tunnelConfig.transport with
            | .error e =>
              .error { code := .invalidConfig
                       message := "failed to normalize config: " ++ e
                       details := none }
            | .ok bytes => .ok bytes
      else
        -- Legacy JSON format. Input is the transport config.
        .ok input

/-- The serialized success response `tunnelConfigJson`
(`json:"firstHop"`, `json:"transport"`). -/
structure TunnelConfigJson where
  firstHop : String
  transport : String
deriving DecidableEq, Repr

/-- Lines 119-122 of parse.go: `FirstHop` is set only when the stream
and packet first hops agree; `Transport` echoes the transport text. -/
def buildResponse (hops : FirstHops) (transportConfigText : String) : TunnelConfigJson :=
  { firstHop := if hops.stream = hops.packet then hops.stream else ""
    transport := transportConfigText }

/-- Hex digit for JSON escapes. -/
def hexDigit (n : Nat) : Char :=
  if n < 10 then Char.ofNat (48 + n) else Char.ofNat (87 + n)

/-- `encoding/json` escaping of one character inside a string literal
(quotes, backslash, control characters, and the HTML-sensitive
characters that Go escapes by default). -/
def jsonEscapeChar (c : Char) : String :=
  if c = '"' then "\\\""
  else if c = '\\' then "\\\\"
  else if c = '\n' then "\\n"
  else if c = '\r' then "\\r"
  else if c = '\t' then "\\t"
  else if c.toNat < 0x20 then
    "\\u00" ++ String.mk [hexDigit (c.toNat / 16), hexDigit (c.toNat % 16)]
  else if c = '<' then "\\u003c"
  else if c = '>' then "\\u003e"
  else if c = '&' then "\\u0026"
  else String.singleton c

/-- `encoding/json` escaping of a whole string. -/
def jsonEscape (s : String) : String :=
  String.join (s.toList.map jsonEscapeChar)

/-- `json.Marshal` of `tunnelConfigJson`: always succeeds for a struct
of two strings, producing the two fields in declaration order. -/
def tunnelConfigJsonMarshal (r : TunnelConfigJson) : String :=
  "\x7b\"firstHop\":\"" ++ jsonEscape r.firstHop ++ "\",\"transport\":\"" ++
    jsonEscape r.transport ++ "\"\x7d"

/-- Lines 111-135 of parse.go: hand the transport text to `NewClient`,
pass its error through unchanged, otherwise build and serialize the
response. -/
def assembleResponse (env : Env) (transportConfigText : String) : InvokeMethodResult :=
  match env.newClient transportConfigText with
  | .error e => { value := "", error := some e }
  | .ok hops =>
    { value := tunnelConfigJsonMarshal (buildResponse hops transportConfigText)
      error := none }

/-- `doParseTunnelConfig` from parse.go. -/
def doParseTunnelConfig (env : Env) (input : String) : InvokeMethodResult :=
  match resolveTransportText env (trimSpace input) with
  | .error e => { value := "", error := some e }
  | .ok transportConfigText => assembleResponse env transportConfigText

/-- A concrete instantiation of the external collaborators, used to
exhibit the theorems below at concrete inputs. Its parser recognizes a
handful of fixed documents; its marshaller emits strings followed by a
newline; its client constructor fails on the text "faildoc" and
otherwise reports the same first hop for both protocols. -/
def sampleEnv : Env where
  yamlParse := fun s =>
    if s = "host: x" then .ok (.map [("host", .str "x")])
    else if s = "transport: tconf" then .ok (.map [("transport", .str "tconf")])
    else if s = "errdoc" then
      .ok (.map [("error", .map [("message", .str "quota exceeded"),
                                 ("details", .str "daily limit")]),
                 ("transport", .str "ignored")])
    else if s = "errdoc0" then .ok (.map [("error", .map [("message", .str "m")])])
    else if s = "scalardoc" then .ok (.str "hello")
    else if s = "badtransport" then .ok (.map [("transport", .seq [])])
    else if s = "faildoc" then .ok (.map [("k", .str "v")])
    else .error "unexpected token"
  yamlMarshal := fun v =>
    match v with
    | .str s => .ok (s ++ "\n")
    | _ => .error "cannot marshal node"
  newClient := fun t =>
    if t = "faildoc" then
      .error { code := .passthrough "proxyServerUnreachable"
               message := "dial failed"
               details := some [("address", "1.2.3.4")] }
    else .ok { stream := "1.2.3.4:8080", packet := "1.2.3.4:8080" }

/-- The serialized success response is never the empty string (it always
starts with a brace). -/
theorem tunnelConfigJsonMarshal_ne_empty (r : TunnelConfigJson) :
    tunnelConfigJsonMarshal r ≠ "" := by
  unfold tunnelConfigJsonMarshal
  intro h
  have hl := congrArg String.length h
  simp only [String.length_append] at hl
  rw [show ("\x7b\"firstHop\":\"" : String).length = 13 from rfl,
      show ("" : String).length = 0 from rfl] at hl
  omega

/-- C2: for every input whose whitespace-trimmed form starts with
"ss://", the trimmed input itself, byte-for-byte, is the transport
config text passed downstream, and no structured-document parsing
occurs (the result is the same for every parser environment). -/
theorem ss_url_input_passthrough (env : Env) (input : String)
    (hss : hasPrefixStr (trimSpace input) "ss://" = true) :
    resolveTransportText env (trimSpace input) = .ok (trimSpace input) ∧
    doParseTunnelConfig env input = assembleResponse env (trimSpace input) := by
  have h1 : resolveTransportText env (trimSpace input) = .ok (trimSpace input) := by
    simp [resolveTransportText, hss]
  exact ⟨h1, by simp [doParseTunnelConfig, h1]⟩

theorem ss_url_input_passthrough_witness :
    doParseTunnelConfig sampleEnv " ss://example " =
      { value := "\x7b\"firstHop\":\"1.2.3.4:8080\",\"transport\":\"ss://example\"\x7d"
        error := none } := by
  have h := ss_url_input_passthrough sampleEnv " ss://example " rfl
  exact h.2.trans (by decide)

/-- C3: for every input (not an ss:// URL) parsing to a document with
neither a top-level "transport" key nor a top-level "error" key, the
transport config text passed downstream is the original (trimmed) input
text verbatim; the probe parse result `doc` is discarded. -/
theorem legacy_flat_config_passthrough (env : Env) (input : String)
    (doc : YamlVal) (es : List (String × YamlVal))
    (hss : hasPrefixStr (trimSpace input) "ss://" = false)
    (hparse : env.yamlParse (trimSpace input) = .ok doc)
    (hmap : decodeMap doc = some es)
    (ht : hasKey es "transport" = false)
    (he : hasKey es "error" = false) :
    resolveTransportText env (trimSpace input) = .ok (trimSpace input) ∧
    doParseTunnelConfig env input = assembleResponse env (trimSpace input) := by
  have h1 : resolveTransportText env (trimSpace input) = .ok (trimSpace input) := by
    simp [resolveTransportText, unmarshalMap, hss, hparse, hmap, ht, he]
  exact ⟨h1, by simp [doParseTunnelConfig, h1]⟩

theorem legacy_flat_config_passthrough_witness :
    doParseTunnelConfig sampleEnv "host: x" =
      { value := "\x7b\"firstHop\":\"1.2.3.4:8080\",\"transport\":\"host: x\"\x7d"
        error := none } := by
  have h := legacy_flat_config_passthrough sampleEnv "host: x"
    (.map [("host", .str "x")]) [("host", .str "x")] rfl rfl rfl rfl rfl
  exact h.2.trans (by decide)

/-- C5: for every input (not an ss:// URL) on which the generic
structured-document parse fails, the result is an InvalidConfig error
embedding the parser failure description; never a ProviderError (the
function is total, so it never panics). -/
theorem malformed_input_invalid_config (env : Env) (input : String) (e : String)
    (hss : hasPrefixStr (trimSpace input) "ss://" = false)
    (hparse : env.yamlParse (trimSpace input) = .error e) :
    doParseTunnelConfig env input =
      { value := ""
        error := some { code := .invalidConfig
                        message := "failed to parse: " ++ e
                        details := none } } := by
  simp [doParseTunnelConfig, resolveTransportText, unmarshalMap, hss, hparse]

theorem malformed_input_invalid_config_witness :
    doParseTunnelConfig sampleEnv "a: [" =
      { value := ""
        error := some { code := .invalidConfig
                        message := "failed to parse: " ++ "unexpected token"
                        details := none } } :=
  malformed_input_invalid_config sampleEnv "a: [" "unexpected token" rfl rfl

/-- C9: for every input (not an ss:// URL) that parses to a document
that is not a mapping (a bare scalar or a sequence), the probe decode
into a string-keyed map fails, so the result is an InvalidConfig error
rather than the legacy flat-config passthrough. -/
theorem non_mapping_document_invalid_config (env : Env) (input : String) (doc : YamlVal)
    (hss : hasPrefixStr (trimSpace input) "ss://" = false)
    (hparse : env.yamlParse (trimSpace input) = .ok doc)
    (hmap : decodeMap doc = none) :
    doParseTunnelConfig env input =
      { value := ""
        error := some { code := .invalidConfig
                        message := "failed to parse: " ++
                          ("cannot unmarshal " ++ yamlKindName doc ++ " into map")
                        details := none } } := by
  simp [doParseTunnelConfig, resolveTransportText, unmarshalMap, hss, hparse, hmap]

theorem non_mapping_document_invalid_config_witness :
    doParseTunnelConfig sampleEnv "scalardoc" =
      { value := ""
        error := some { code := .invalidConfig
                        message := "failed to parse: " ++
                          ("cannot unmarshal " ++ yamlKindName (.str "hello") ++ " into map")
                        details := none } } :=
  non_mapping_document_invalid_config sampleEnv "scalardoc" (.str "hello") rfl rfl rfl

/-- C4: for every structured document whose typed projection yields a
present Error object, the result is a ProviderError envelope whose
message equals Error.Message, with a "details" entry exactly when
Error.Details is non-empty; the equation is independent of the
environment's marshaller and client constructor, so a transport field
alongside the error is ignored and transport extraction never runs. -/
theorem provider_error_envelope (env : Env) (input : String) (doc : YamlVal)
    (es : List (String × YamlVal)) (req : ParseTunnelConfigRequest) (einfo : ErrorInfo)
    (hss : hasPrefixStr (trimSpace input) "ss://" = false)
    (hparse : env.yamlParse (trimSpace input) = .ok doc)
    (hmap : decodeMap doc = some es)
    (hkeys : (hasKey es "transport" || hasKey es "error") = true)
    (hreq : decodeRequest doc = .ok req)
    (herr : req.error = some einfo) :
    doParseTunnelConfig env input =
      { value := ""
        error := some { code := .providerError
                        message := einfo.message
                        details :=
                          if einfo.details ≠ "" then some [("details", einfo.details)]
                          else none } } := by
  simp [doParseTunnelConfig, resolveTransportText, unmarshalMap, unmarshalRequest,
    hss, hparse, hmap, hkeys, hreq, herr]

theorem provider_error_envelope_witness :
    doParseTunnelConfig sampleEnv "errdoc" =
      { value := ""
        error := some { code := .providerError
                        message := "quota exceeded"
                        details := some [("details", "daily limit")] } } := by
  have h := provider_error_envelope sampleEnv "errdoc"
    (.map [("error", .map [("message", .str "quota exceeded"),
                           ("details", .str "daily limit")]),
           ("transport", .str "ignored")])
    [("error", .map [("message", .str "quota exceeded"),
                     ("details", .str "daily limit")]),
     ("transport", .str "ignored")]
    { transport := .str "ignored"
      error := some { message := "quota exceeded", details := "daily limit" } }
    { message := "quota exceeded", details := "daily limit" }
    rfl rfl rfl rfl rfl rfl
  exact h.trans (by decide)

/-- C10: in the ProviderError envelope, the Details mapping is absent
(none, not an empty mapping) exactly when Error.Details is the empty
string, and holds a single "details" entry otherwise. -/
theorem provider_error_details_presence (env : Env) (input : String) (doc : YamlVal)
    (es : List (String × YamlVal)) (req : ParseTunnelConfigRequest) (einfo : ErrorInfo)
    (hss : hasPrefixStr (trimSpace input) "ss://" = false)
    (hparse : env.yamlParse (trimSpace input) = .ok doc)
    (hmap : decodeMap doc = some es)
    (hkeys : (hasKey es "transport" || hasKey es "error") = true)
    (hreq : decodeRequest doc = .ok req)
    (herr : req.error = some einfo) :
    doParseTunnelConfig env input =
      { value := ""
        error := some { code := .providerError
                        message := einfo.message
                        details :=
                          if einfo.details = "" then none
                          else some [("details", einfo.details)] } } := by
  simp [doParseTunnelConfig, resolveTransportText, unmarshalMap, unmarshalRequest,
    hss, hparse, hmap, hkeys, hreq, herr, ite_not]

theorem provider_error_details_presence_witness :
    doParseTunnelConfig sampleEnv "errdoc0" =
      { value := ""
        error := some { code := .providerError
                        message := "m"
                        details := none } } := by
  have h := provider_error_details_presence sampleEnv "errdoc0"
    (.map [("error", .map [("message", .str "m")])])
    [("error", .map [("message", .str "m")])]
    { transport := .null, error := some { message := "m", details := "" } }
    { message := "m", details := "" }
    rfl rfl rfl rfl rfl rfl
  exact h.trans (by decide)

/-- C6: for every structured document with a transport key and no
present error object, the transport config text passed downstream is
the re-serialized form of the transport subtree (depending only on that
subtree, not on the surrounding document's formatting); a serialization
failure yields InvalidConfig with the distinct "failed to normalize
config" wording. -/
theorem transport_normalization (env : Env) (input : String) (doc : YamlVal)
    (es : List (String × YamlVal)) (req : ParseTunnelConfigRequest)
    (hss : hasPrefixStr (trimSpace input) "ss://" = false)
    (hparse : env.yamlParse (trimSpace input) = .ok doc)
    (hmap : decodeMap doc = some es)
    (hkeys : (hasKey es "transport" || hasKey es "error") = true)
    (hreq : decodeRequest doc = .ok req)
    (herr : req.error = none) :
    resolveTransportText env (trimSpace input) =
      (match env.yamlMarshal req.transport with
       | .ok bytes => .ok bytes
       | .error e =>
         .error { code := .invalidConfig
                  message := "failed to normalize config: " ++ e
                  details := none }) ∧
    doParseTunnelConfig env input =
      (match env.yamlMarshal req.transport with
       | .ok bytes => assembleResponse env bytes
       | .error e =>
         { value := ""
           error := some { code := .invalidConfig
                           message := "failed to normalize config: " ++ e
                           details := none } }) := by
  have h1 : resolveTransportText env (trimSpace input) =
      (match env.yamlMarshal req.transport with
       | .ok bytes => .ok bytes
       | .error e =>
         .error { code := .invalidConfig
                  message := "failed to normalize config: " ++ e
                  details := none }) := by
    rcases hm : env.yamlMarshal req.transport with e | bytes <;>
      simp [resolveTransportText, unmarshalMap, unmarshalRequest,
        hss, hparse, hmap, hkeys, hreq, herr, hm]
  refine ⟨h1, ?_⟩
  rcases hm : env.yamlMarshal req.transport with e | bytes <;>
    simp [doParseTunnelConfig, h1, hm]

theorem transport_normalization_witness :
    doParseTunnelConfig sampleEnv "transport: tconf" =
      { value := "\x7b\"firstHop\":\"1.2.3.4:8080\",\"transport\":\"tconf\\n\"\x7d"
        error := none } := by
  have h := transport_normalization sampleEnv "transport: tconf"
    (.map [("transport", .str "tconf")]) [("transport", .str "tconf")]
    { transport := .str "tconf", error := none }
    rfl rfl rfl rfl rfl rfl
  exact h.2.trans (by decide)

/-- C7: every PlatformError returned by the NewClient collaborator is
forwarded unchanged (same code, message and details) as the terminal
result's error. -/
theorem newclient_error_passthrough (env : Env) (input t : String) (pe : PlatformError)
    (hres : resolveTransportText env (trimSpace input) = .ok t)
    (hcl : env.newClient t = .error pe) :
    doParseTunnelConfig env input = { value := "", error := some pe } := by
  simp [doParseTunnelConfig, assembleResponse, hres, hcl]

theorem newclient_error_passthrough_witness :
    doParseTunnelConfig sampleEnv "faildoc" =
      { value := ""
        error := some { code := .passthrough "proxyServerUnreachable"
                        message := "dial failed"
                        details := some [("address", "1.2.3.4")] } } :=
  newclient_error_passthrough sampleEnv "faildoc" "faildoc"
    { code := .passthrough "proxyServerUnreachable"
      message := "dial failed"
      details := some [("address", "1.2.3.4")] }
    rfl rfl

/-- C1: when NewClient succeeds, the response's firstHop equals the
common first-hop value if the streaming and packet values are exactly
equal, and is the empty string otherwise; it is never any value other
than one of the two inputs or empty. -/
theorem firstHop_reconciliation (env : Env) (input t : String) (hops : FirstHops)
    (hres : resolveTransportText env (trimSpace input) = .ok t)
    (hcl : env.newClient t = .ok hops) :
    doParseTunnelConfig env input =
      { value := tunnelConfigJsonMarshal (buildResponse hops t), error := none } ∧
    (buildResponse hops t).firstHop =
      (if hops.stream = hops.packet then hops.stream else "") ∧
    ((buildResponse hops t).firstHop = hops.stream ∨
     (buildResponse hops t).firstHop = hops.packet ∨
     (buildResponse hops t).firstHop = "") := by
  refine ⟨by simp [doParseTunnelConfig, assembleResponse, hres, hcl], rfl, ?_⟩
  by_cases h : hops.stream = hops.packet <;> simp [buildResponse, h]

theorem firstHop_reconciliation_witness :
    doParseTunnelConfig sampleEnv "ss://example" =
      { value := "\x7b\"firstHop\":\"1.2.3.4:8080\",\"transport\":\"ss://example\"\x7d"
        error := none } ∧
    (buildResponse { stream := "1.2.3.4:8080", packet := "1.2.3.4:8080" }
        "ss://example").firstHop = "1.2.3.4:8080" := by
  have h := firstHop_reconciliation sampleEnv "ss://example" "ss://example"
    { stream := "1.2.3.4:8080", packet := "1.2.3.4:8080" } rfl rfl
  exact ⟨h.1.trans (by decide), h.2.1.trans (by decide)⟩

/-- C8: for every environment and input, the result envelope has
exactly one of its two fields populated: either the error is absent and
the value is a non-empty string, or the error is present and the value
is empty. -/
theorem result_envelope_exclusive (env : Env) (input : String) :
    ((doParseTunnelConfig env input).error = none ∧
     (doParseTunnelConfig env input).value ≠ "") ∨
    ((doParseTunnelConfig env input).error ≠ none ∧
     (doParseTunnelConfig env input).value = "") := by
  rcases hres : resolveTransportText env (trimSpace input) with e | t
  · right; simp [doParseTunnelConfig, hres]
  · rcases hnc : env.newClient t with e | hops
    · right; simp [doParseTunnelConfig, assembleResponse, hres, hnc]
    · left
      simp [doParseTunnelConfig, assembleResponse, hres, hnc, tunnelConfigJsonMarshal_ne_empty]

end Outline
